import Mathlib

/-
Shallow embedding of the SEO Coach retrieval-augmented chat app (src/app.py).

Pure functions of the source (trunc/build_context/build_messages) are
translated directly.  Stateful / networked parts are embedded with explicit
state:
  * the Mongo document and chat collections are in-memory lists (`DB`);
  * the aggregation pipeline of `search_docs` and the find of `get_history`
    are given executable semantics (`mongoSearch`, `historyQuery`);
  * the backend text-scorer (`$meta textScore`) is an oracle parameter;
  * HTTP Data API calls can fail (transport error from `requests.post`, or a
    non-2xx status that `raise_for_status()` turns into an exception); these
    are modelled with `Except DaError`;
  * the Anthropic completion call is an oracle returning either a reply or
    one of the two exception classes caught in `ask_claude`;
  * the top-level Streamlit script (lines 183-203) is `runScript`.
Timestamps are Nat, relevance scores are Nat (backend-assigned).
-/

set_option maxRecDepth 8000

/-- Python str.strip / regex \s whitespace set (ASCII part). -/
def isPySpace (c : Char) : Bool :=
  c = ' ' || c = '\t' || c = '\n' || c = '\r' || c = '\x0b' || c = '\x0c'

/-- Python `s.strip()` on the underlying character list. -/
def stripList (l : List Char) : List Char :=
  ((l.dropWhile isPySpace).reverse.dropWhile isPySpace).reverse

/-- Python `s.strip()`. -/
def pyStrip (s : String) : String := ⟨stripList s.data⟩

/-- `MAX_BODY_CHARS = 1200` (app.py line 32). -/
def MAX_BODY_CHARS : Nat := 1200

/-- The nested `trunc` of `build_context` (app.py lines 138-140):
`s = (s or "").strip(); return s if len(s) <= MAX_BODY_CHARS else s[:MAX_BODY_CHARS] + "…"`. -/
def trunc (s : String) : String :=
  let t := pyStrip s
  if t.length ≤ MAX_BODY_CHARS then t else String.mk (t.data.take MAX_BODY_CHARS) ++ "…"

/-- Python truthiness of an optional string (None and "" are falsy). -/
def pyTruthy : Option String → Bool
  | some s => decide (s ≠ "")
  | none => false

/-- Python truthiness of a string. -/
def pyTruthyS (s : String) : Bool := decide (s ≠ "")

/-- Python f-string rendering of an optional string (`None` renders as "None"). -/
def pyStr : Option String → String
  | some s => s
  | none => "None"

/-- Python `a or b` on optional strings. -/
def pyOr (a b : Option String) : Option String := if pyTruthy a then a else b

/-- One projected retrieval result row: the `$project` of `search_docs` keeps
source, title, section, body, score (app.py line 131). -/
structure Hit where
  source : Option String
  title : Option String
  «section» : Option String
  body : Option String
  score : Nat
deriving DecidableEq

/-- One formatted entry of `build_context` (app.py lines 142-145). -/
def entryFor (i : Nat) (r : Hit) : String :=
  let hdr := "[Doc " ++ toString i ++ "] " ++ pyStr (pyOr r.title r.source)
  let hdr2 := if pyTruthy r.«section» then hdr ++ " — " ++ r.«section».getD "" else hdr
  hdr2 ++ "\n" ++ trunc (r.body.getD "")

/-- `build_context` (app.py lines 137-146). -/
def build_context (rows : List Hit) : String :=
  String.intercalate "\n\n" ((List.enumFrom 1 rows).map (fun p => entryFor p.1 p.2))

/-- One chat-collection record (the document inserted by `save_msg`, app.py
line 117); role/content are optional because history rows are read back as
dictionaries and accessed with `.get`. -/
structure ChatDoc where
  session_id : String
  email : String
  ts : Nat
  role : Option String
  content : Option String
deriving DecidableEq

/-- One role-tagged turn sent to the model; the source wraps `text` in a
single-element content list of type "text" (app.py lines 151-153). -/
structure Turn where
  role : String
  text : String
deriving DecidableEq

/-- The per-history-row mapping of `build_messages` (app.py lines 150-152):
`"assistant" if h.get("role")=="assistant" else "user"`, `h.get("content","")`. -/
def toTurn (h : ChatDoc) : Turn :=
  ⟨if h.role = some "assistant" then "assistant" else "user", h.content.getD ""⟩

/-- The final synthetic user turn of `build_messages` (app.py line 153). -/
def finalTurn (context question : String) : Turn :=
  ⟨"user", "[CONTEXT]\n" ++ context ++ "\n[/CONTEXT]\n\nQuestion: " ++ question⟩

/-- `build_messages` (app.py lines 148-154). -/
def build_messages (history_rows : List ChatDoc) (context question : String) : List Turn :=
  history_rows.map toTurn ++ [finalTurn context question]

/-- Outcome of one Anthropic `messages.create` call: a reply text, or one of
the two exception classes caught in `ask_claude` (app.py lines 164-167). -/
inductive ClaudeResult where
  | reply (text : String)
  | apiStatusError (message : String)
  | failure (message : String)
deriving DecidableEq

/-- `ask_claude` (app.py lines 156-167); `key` is ANTHROPIC_API_KEY and
`backend` is the hosted completion endpoint. -/
def ask_claude (key : Option String) (backend : List Turn → ClaudeResult)
    (messages : List Turn) : String :=
  if pyTruthy key then
    match backend messages with
    | .reply t => t
    | .apiStatusError m => "Claude API error: " ++ m
    | .failure m => "Claude call failed: " ++ m
  else "Anthropic key not configured."

/-- One docs-collection record (source, title, section, body, topic). -/
structure Document where
  source : Option String
  title : Option String
  «section» : Option String
  body : Option String
  topic : Option String
deriving DecidableEq

/-- The `$project` stage of the `search_docs` pipeline (app.py line 131):
keep source/title/section/body, attach the score, drop _id and topic. -/
def projectDoc (d : Document) (s : Nat) : Hit := ⟨d.source, d.title, d.«section», d.body, s⟩

/-- Descending-score order used by `$sort score: -1` (app.py line 129). -/
def scoreGe (a b : Document × Nat) : Prop := b.2 ≤ a.2

instance : DecidableRel scoreGe := fun a b => Nat.decLe b.2 a.2

instance : IsTotal (Document × Nat) scoreGe := ⟨fun a b => (Nat.le_total a.2 b.2).symm⟩

instance : IsTrans (Document × Nat) scoreGe := ⟨fun _ _ _ hab hbc => Nat.le_trans hbc hab⟩

/-- The optional equality filter `match["topic"]=topic` (app.py line 125). -/
def topicOk (topic : Option String) (d : Document) : Bool :=
  match topic with
  | some t => decide (d.topic = some t)
  | none => true

/-- Semantics of the aggregation pipeline of `search_docs` (app.py lines
126-132): `$match` (text search plus optional topic equality), `$addFields`
score, `$sort score: -1`, `$limit k`, `$project`.  `tS` is the backend text
scorer: `tS query d = some s` when `d` matches the `$text` search with score
`s`.  Ties are broken by a fixed order (the backend order is unspecified). -/
def mongoSearch (docs : List Document) (tS : String → Document → Option Nat)
    (query : String) (k : Nat) (topic : Option String) : List Hit :=
  let matched := docs.filter (fun d => (tS query d).isSome && topicOk topic d)
  let scored := matched.map (fun d => (d, (tS query d).getD 0))
  let sorted := List.insertionSort scoreGe scored
  (sorted.take k).map (fun p => projectDoc p.1 p.2)

/-- A failed Data API HTTP call: a transport exception raised by
`requests.post`, or an HTTP error status turned into an exception by
`raise_for_status()` (app.py lines 99, 105). -/
inductive DaError where
  | transport
  | httpStatus (code : Nat)
deriving DecidableEq

/-- Connectivity of the Data API backend at call time. -/
inductive DaConn where
  | unreachable
  | respond (status : Nat)
deriving DecidableEq

/-- The module-level `store` handle returned by `get_clients` (app.py lines
51, 65, 78, 81): `None`, a Data API descriptor (its `ok` probe flag is never
consulted again), or a connected PyMongo database. -/
inductive StoreState where
  | noStore
  | dataApi (ok : Bool) (conn : DaConn)
  | pymongo
deriving DecidableEq

/-- The backing database: the `docs` and `chat` collections. -/
structure DB where
  docs : List Document
  chat : List ChatDoc
deriving DecidableEq

/-- `search_docs` (app.py lines 122-135).  With no store handle it returns
`[]`; in Data API mode the call goes through `da_aggregate`, whose
`raise_for_status()` propagates transport and HTTP errors (lines 103-106);
in PyMongo mode the pipeline runs on the connected database. -/
def search_docs (store : StoreState) (db : DB) (tS : String → Document → Option Nat)
    (query : String) (k : Nat) (topic : Option String) : Except DaError (List Hit) :=
  match store with
  | .noStore => .ok []
  | .dataApi _ .unreachable => .error .transport
  | .dataApi _ (.respond code) =>
      if code < 400 then .ok (mongoSearch db.docs tS query k topic)
      else .error (.httpStatus code)
  | .pymongo => .ok (mongoSearch db.docs tS query k topic)

/-- Ascending-timestamp order used by `.sort("ts",1)` (app.py line 113). -/
def tsLe (a b : ChatDoc) : Prop := a.ts ≤ b.ts

instance : DecidableRel tsLe := fun a b => Nat.decLe a.ts b.ts

instance : IsTotal ChatDoc tsLe := ⟨fun a b => Nat.le_total a.ts b.ts⟩

instance : IsTrans ChatDoc tsLe := ⟨fun _ _ _ => Nat.le_trans⟩

/-- The find filter `{"session_id":sid,"email":email}` (app.py lines 111, 113). -/
def filterSession (chat : List ChatDoc) (sid email : String) : List ChatDoc :=
  chat.filter (fun m => decide (m.session_id = sid) && decide (m.email = email))

/-- `.sort("ts",1)`: sort ascending by timestamp (ties in a fixed order). -/
def sortByTs (l : List ChatDoc) : List ChatDoc := List.insertionSort tsLe l

/-- Semantics of the history find: filter on (session_id, email), sort by ts
ascending, then `.limit(limit)` (app.py lines 111, 113). -/
def historyQuery (chat : List ChatDoc) (sid email : String) (limit : Nat) : List ChatDoc :=
  (sortByTs (filterSession chat sid email)).take limit

/-- `get_history` (app.py lines 108-113).  With no store handle it returns
`[]`; in Data API mode the call goes through `da_find`, whose
`raise_for_status()` propagates transport and HTTP errors (lines 95-100). -/
def get_history (store : StoreState) (db : DB) (session_id email : String)
    (limit : Nat) : Except DaError (List ChatDoc) :=
  match store with
  | .noStore => .ok []
  | .dataApi _ .unreachable => .error .transport
  | .dataApi _ (.respond code) =>
      if code < 400 then .ok (historyQuery db.chat session_id email limit)
      else .error (.httpStatus code)
  | .pymongo => .ok (historyQuery db.chat session_id email limit)

/-- `save_msg` (app.py lines 115-120).  With no store handle it is a no-op;
in Data API mode `da_insert_one` performs `requests.post` without checking
the status (lines 91-93), so a transport failure raises while an HTTP error
status is silently ignored (the server then applies no insert); PyMongo mode
appends the record. -/
def save_msg (store : StoreState) (db : DB) (session_id email role content : String)
    (ts : Nat) : Except DaError DB :=
  match store with
  | .noStore => .ok db
  | .dataApi _ .unreachable => .error .transport
  | .dataApi _ (.respond code) =>
      .ok (if code < 400 then
            { db with chat := db.chat ++ [⟨session_id, email, ts, some role, some content⟩] }
          else db)
  | .pymongo =>
      .ok { db with chat := db.chat ++ [⟨session_id, email, ts, some role, some content⟩] }

/-- Character class `[^@\s]` of EMAIL_RE (app.py lines 86, 183). -/
def okChar (c : Char) : Bool := decide (c ≠ '@') && !(isPySpace c)

/-- Core match of `^[^@\s]+@[^@\s]+\.[^@\s]+$` against a whole string:
there is an `@` at some position `i ≥ 1`, a `.` at some position `j` with
`i + 2 ≤ j ≤ length - 2`, and every character other than the `@` is in
`[^@\s]`. -/
def emailCore (s : List Char) : Bool :=
  (List.range s.length).any (fun i =>
    (List.range s.length).any (fun j =>
      decide (1 ≤ i) && decide (i + 2 ≤ j) && decide (j + 2 ≤ s.length) &&
      (s.getD i ' ' == '@') && (s.getD j ' ' == '.') &&
      (List.range s.length).all (fun p => p == i || okChar (s.getD p ' '))))

/-- Python `re.match(r"^[^@\s]+@[^@\s]+\.[^@\s]+$", s)` as a Bool: `$` also
matches just before a single trailing newline. -/
def reMatchEmail (s : String) : Bool :=
  emailCore s.data ||
    (match s.data.getLast? with
     | some c => c == '\n' && emailCore s.data.dropLast
     | none => false)

/-- What one run of the Streamlit script (lines 183-203) does. -/
inductive Outcome where
  | stoppedEmail
  | stoppedStore
  | crashed (e : DaError)
  | noTurn
  | turnDone (reply : String) (rows : List Hit)
deriving DecidableEq

/-- Result of a script run: the outcome plus the database contents after it. -/
structure RunResult where
  outcome : Outcome
  db : DB
deriving DecidableEq

def isNoStore : StoreState → Bool
  | .noStore => true
  | _ => false

/-- Ambient configuration of one script run: API key, store handle, database
contents, backend text scorer, completion endpoint, and the two `utcnow`
timestamps taken by the two `save_msg` calls. -/
structure AppEnv where
  key : Option String
  store : StoreState
  db : DB
  tS : String → Document → Option Nat
  claude : List Turn → ClaudeResult
  now1 : Nat
  now2 : Nat

/-- The top-level script flow (app.py lines 183-203): email gate, store
guard, history display (limit 50), then on a submitted message: save the
user message, search docs, build context, fetch history (limit 20), build
messages, ask Claude, save the assistant reply.  An uncaught storage
exception aborts the run (`crashed`). -/
def runScript (env : AppEnv) (email sid : String) (k : Nat) (topic : String)
    (user_msg : Option String) : RunResult :=
  if !(pyTruthyS email && reMatchEmail email) then ⟨.stoppedEmail, env.db⟩
  else if isNoStore env.store then ⟨.stoppedStore, env.db⟩
  else
    match get_history env.store env.db sid email 50 with
    | .error e => ⟨.crashed e, env.db⟩
    | .ok _ =>
      match user_msg with
      | none => ⟨.noTurn, env.db⟩
      | some m =>
        if !(pyTruthyS m) then ⟨.noTurn, env.db⟩
        else
          match save_msg env.store env.db sid email "user" m env.now1 with
          | .error e => ⟨.crashed e, env.db⟩
          | .ok db1 =>
            match search_docs env.store db1 env.tS m k
                (if pyTruthyS topic then some topic else none) with
            | .error e => ⟨.crashed e, db1⟩
            | .ok rows =>
              match get_history env.store db1 sid email 20 with
              | .error e => ⟨.crashed e, db1⟩
              | .ok hist =>
                let reply := ask_claude env.key env.claude
                  (build_messages hist (build_context rows) m)
                match save_msg env.store db1 sid email "assistant" reply env.now2 with
                | .error e => ⟨.crashed e, db1⟩
                | .ok db2 => ⟨.turnDone reply rows, db2⟩

example : build_context [] = "" := rfl

example : trunc "  hi  " = "hi" := by decide

example : reMatchEmail "a@b.c" = true := by decide

example : reMatchEmail "a@bc" = false := by decide

example : reMatchEmail "" = false := by decide

example : reMatchEmail "a b@c.d" = false := by decide

example : reMatchEmail "a@b.c\n" = true := by decide

-- ---------------------------------------------------------------------------
-- Shared helper lemmas
-- ---------------------------------------------------------------------------

lemma build_messages_getLast (hist : List ChatDoc) (ctx q : String) :
    (build_messages hist ctx q).getLast? = some (finalTurn ctx q) :=
  List.getLast?_concat _

lemma build_messages_getD (hist : List ChatDoc) (ctx q : String) (i : Nat)
    (h : i < hist.length) (d : Turn) (d2 : ChatDoc) :
    (build_messages hist ctx q).getD i d = toTurn (hist.getD i d2) := by
  have hm : i < (hist.map toTurn).length := by simpa using h
  simp [build_messages, List.getElem?_append_left hm, List.getElem?_eq_getElem h]

lemma build_messages_getD_final (hist : List ChatDoc) (ctx q : String) (d : Turn) :
    (build_messages hist ctx q).getD hist.length d = finalTurn ctx q := by
  have hm : (hist.map toTurn).length ≤ hist.length := by simp
  simp [build_messages, List.getElem?_append_right hm]

-- ---------------------------------------------------------------------------
-- C3: snippet truncation
-- ---------------------------------------------------------------------------

/-- A body of 1201 blank characters. -/
def spaces1201 : String := String.mk (List.replicate 1201 ' ')

/-- C3 counterexample: the claim says truncation (with an appended ellipsis)
happens if and only if the original body's length exceeds MAX_BODY_CHARS.
A body of 1201 spaces has length 1201 > 1200, yet `trunc` strips it to ""
and appends no ellipsis, so the "if" direction fails on the code. -/
theorem trunc_iff_original_length_counterexample :
    MAX_BODY_CHARS < spaces1201.length ∧ trunc spaces1201 = "" := by
  constructor
  · rw [show spaces1201.length = 1201 from rfl]
    decide
  · rfl

/-- C3 amended: the body segment produced by `trunc` has length at most
MAX_BODY_CHARS plus one ellipsis character, and truncation (a plain
character cut at MAX_BODY_CHARS with one appended ellipsis) happens if and
only if the length of the whitespace-stripped body exceeds MAX_BODY_CHARS;
otherwise the stripped body is returned unchanged. -/
theorem trunc_length_bound_and_cut : ∀ s : String,
    (trunc s).length ≤ MAX_BODY_CHARS + 1
    ∧ ((pyStrip s).length ≤ MAX_BODY_CHARS → trunc s = pyStrip s)
    ∧ (trunc s = String.mk ((pyStrip s).data.take MAX_BODY_CHARS) ++ "…"
        ↔ MAX_BODY_CHARS < (pyStrip s).length) := by
  intro s
  by_cases h : (pyStrip s).length ≤ MAX_BODY_CHARS
  · have ht : trunc s = pyStrip s := by simp [trunc, h]
    refine ⟨ht ▸ h.trans (Nat.le_succ _), fun _ => ht, ?_, fun hlt => absurd hlt (by omega)⟩
    intro he
    rw [ht] at he
    have hlen := congrArg String.length he
    have hdata : (pyStrip s).length = (pyStrip s).data.length := rfl
    simp [String.length_append, String.length_mk, List.length_take] at hlen
    have hE : ("…" : String).length = 1 := rfl
    rw [hE] at hlen
    omega
  · have ht : trunc s = String.mk ((pyStrip s).data.take MAX_BODY_CHARS) ++ "…" := by
      simp [trunc, h]
    refine ⟨?_, fun hc => absurd hc h, fun _ => by omega, fun _ => ht⟩
    rw [ht, String.length_append, String.length_mk]
    have h1 : ((pyStrip s).data.take MAX_BODY_CHARS).length ≤ MAX_BODY_CHARS :=
      List.length_take_le _ _
    have h2 : ("…" : String).length = 1 := rfl
    omega

/-- Witness for the amended C3 theorem at the concrete body "hello". -/
theorem trunc_length_bound_and_cut_witness :
    (trunc "hello").length ≤ MAX_BODY_CHARS + 1 ∧ trunc "hello" = pyStrip "hello" :=
  have h := trunc_length_bound_and_cut "hello"
  ⟨h.1, h.2.1 (by decide)⟩

-- ---------------------------------------------------------------------------
-- C5: completion failure strings
-- ---------------------------------------------------------------------------

/-- C5: `ask_claude` is a total function into strings (a completion failure
never aborts the turn); with an unconfigured (missing or empty) credential
it returns the fixed "not configured" string, and when the backend raises it
returns a human-readable string beginning with the fixed error prefix of the
caught exception class, never an exception. -/
theorem completion_failure_strings : ∀ (key : Option String)
    (backend : List Turn → ClaudeResult) (msgs : List Turn) (m : String),
    (pyTruthy key = false → ask_claude key backend msgs = "Anthropic key not configured.")
    ∧ (pyTruthy key = true → backend msgs = ClaudeResult.apiStatusError m →
        ask_claude key backend msgs = "Claude API error: " ++ m)
    ∧ (pyTruthy key = true → backend msgs = ClaudeResult.failure m →
        ask_claude key backend msgs = "Claude call failed: " ++ m) := by
  intro key backend msgs m
  refine ⟨fun hk => ?_, fun hk hb => ?_, fun hk hb => ?_⟩ <;>
    simp_all [ask_claude]

/-- A completion backend that always raises an APIStatusError. -/
def backendApiErr : List Turn → ClaudeResult := fun _ => .apiStatusError "overloaded"

/-- Witness for C5 at a missing key and at a raising backend. -/
theorem completion_failure_strings_witness :
    ask_claude none backendApiErr [] = "Anthropic key not configured."
    ∧ ask_claude (some "sk") backendApiErr [] = "Claude API error: " ++ "overloaded" :=
  have h1 := completion_failure_strings none backendApiErr [] "overloaded"
  have h2 := completion_failure_strings (some "sk") backendApiErr [] "overloaded"
  ⟨h1.1 rfl, h2.2.1 (by decide) rfl⟩

-- ---------------------------------------------------------------------------
-- C6: assembler preserves history
-- ---------------------------------------------------------------------------

/-- C6: `build_messages` outputs exactly `len(history) + 1` turns; the turn
at position `len(history)` is the single appended final turn; and the turn
at each history position `i` keeps that row's content and carries role
"assistant" exactly when the row's role is "assistant", anything else
(including a missing role) being normalized to "user". -/
theorem assemble_preserves_history : ∀ (hist : List ChatDoc) (ctx q : String) (i : Nat),
    (build_messages hist ctx q).length = hist.length + 1
    ∧ (build_messages hist ctx q).getD hist.length ⟨"", ""⟩ = finalTurn ctx q
    ∧ (i < hist.length →
        ((build_messages hist ctx q).getD i ⟨"", ""⟩).role
          = (if (hist.getD i ⟨"", "", 0, none, none⟩).role = some "assistant"
             then "assistant" else "user")
        ∧ ((build_messages hist ctx q).getD i ⟨"", ""⟩).text
          = (hist.getD i ⟨"", "", 0, none, none⟩).content.getD "") := by
  intro hist ctx q i
  refine ⟨by simp [build_messages], build_messages_getD_final hist ctx q _, fun h => ?_⟩
  rw [build_messages_getD hist ctx q i h ⟨"", ""⟩ ⟨"", "", 0, none, none⟩]
  exact ⟨rfl, rfl⟩

/-- A one-row history whose role is neither "user" nor "assistant". -/
def histW : List ChatDoc := [⟨"s", "e", 0, some "system", some "hey"⟩]

/-- Witness for C6: an unknown role "system" is normalized to "user", and
the output has length 2 = 1 + 1. -/
theorem assemble_preserves_history_witness :
    (build_messages histW "c" "q").length = histW.length + 1
    ∧ ((build_messages histW "c" "q").getD 0 ⟨"", ""⟩).role = "user" :=
  have h := assemble_preserves_history histW "c" "q" 0
  ⟨h.1, ((h.2.2 (by decide)).1).trans (by decide)⟩

-- ---------------------------------------------------------------------------
-- C7: final turn template
-- ---------------------------------------------------------------------------

/-- C7: the final turn appended by `build_messages` is a user turn whose
content is exactly the fixed template: context-open marker, the context
block, context-close marker, a blank line, then "Question: " followed by the
literal question text. -/
theorem final_turn_template : ∀ (hist : List ChatDoc) (ctx q : String),
    (build_messages hist ctx q).getLast?
      = some ⟨"user", "[CONTEXT]\n" ++ ctx ++ "\n[/CONTEXT]\n\nQuestion: " ++ q⟩ :=
  fun hist ctx q => build_messages_getLast hist ctx q

-- ---------------------------------------------------------------------------
-- C9: empty context
-- ---------------------------------------------------------------------------

/-- C9: formatting the empty hit sequence yields the empty string, and
assembling with that empty context still produces a request whose final
turn is a user turn containing the literal question. -/
theorem empty_context_wellformed :
    build_context [] = ""
    ∧ ∀ (hist : List ChatDoc) (q : String),
        (build_messages hist (build_context []) q).getLast?
          = some (finalTurn (build_context []) q)
        ∧ (finalTurn (build_context []) q).role = "user"
        ∧ ∃ pre, (finalTurn (build_context []) q).text = pre ++ q :=
  ⟨rfl, fun hist q =>
    ⟨build_messages_getLast hist _ q, rfl,
     ⟨"[CONTEXT]\n" ++ build_context [] ++ "\n[/CONTEXT]\n\nQuestion: ", rfl⟩⟩⟩

-- ---------------------------------------------------------------------------
-- Retrieval pipeline lemmas
-- ---------------------------------------------------------------------------

/-- Descending-score order on projected hits. -/
def hitGe (a b : Hit) : Prop := b.score ≤ a.score

lemma mongoSearch_eq (docs : List Document) (tS : String → Document → Option Nat)
    (q : String) (k : Nat) (topic : Option String) :
    mongoSearch docs tS q k topic =
      ((List.insertionSort scoreGe
          ((docs.filter (fun d => (tS q d).isSome && topicOk topic d)).map
            (fun d => (d, (tS q d).getD 0)))).take k).map
        (fun p => projectDoc p.1 p.2) := rfl

lemma mongoSearch_length_le (docs : List Document) (tS : String → Document → Option Nat)
    (q : String) (k : Nat) (topic : Option String) :
    (mongoSearch docs tS q k topic).length ≤ k := by
  rw [mongoSearch_eq, List.length_map]
  exact List.length_take_le _ _

lemma mongoSearch_sorted (docs : List Document) (tS : String → Document → Option Nat)
    (q : String) (k : Nat) (topic : Option String) :
    List.Sorted hitGe (mongoSearch docs tS q k topic) := by
  rw [mongoSearch_eq]
  refine List.pairwise_map.mpr ?_
  refine List.Pairwise.sublist (List.take_sublist _ _) ?_
  exact List.sorted_insertionSort scoreGe _

lemma mongoSearch_mem (docs : List Document) (tS : String → Document → Option Nat)
    (q : String) (k : Nat) (topic : Option String) (x : Hit)
    (hx : x ∈ mongoSearch docs tS q k topic) :
    ∃ d, d ∈ docs ∧ (tS q d).isSome = true ∧ topicOk topic d = true
      ∧ x = projectDoc d ((tS q d).getD 0) := by
  rw [mongoSearch_eq] at hx
  obtain ⟨p, hp, rfl⟩ := List.mem_map.mp hx
  have hp2 := List.mem_of_mem_take hp
  rw [List.mem_insertionSort] at hp2
  obtain ⟨d, hd, rfl⟩ := List.mem_map.mp hp2
  obtain ⟨hdocs, hpred⟩ := List.mem_filter.mp hd
  rw [Bool.and_eq_true] at hpred
  exact ⟨d, hdocs, hpred.1, hpred.2, rfl⟩

-- ---------------------------------------------------------------------------
-- C8: search guarantees
-- ---------------------------------------------------------------------------

/-- C8: whenever `search_docs` returns a result list, it has at most `k`
hits, it is ordered by descending relevance score, and if a topic filter was
supplied every returned hit is the projection of a stored document whose
topic field equals the filter. -/
theorem search_results_bounded_sorted_filtered : ∀ (st : StoreState) (db : DB)
    (tS : String → Document → Option Nat) (q : String) (k : Nat)
    (top : Option String) (hits : List Hit),
    0 < k → search_docs st db tS q k top = Except.ok hits →
    hits.length ≤ k
    ∧ List.Sorted hitGe hits
    ∧ (∀ t, top = some t → ∀ x, x ∈ hits →
        ∃ d, d ∈ db.docs ∧ d.topic = some t ∧ x = projectDoc d ((tS q d).getD 0)) := by
  intro st db tS q k top hits hk hok
  have key : hits = [] ∨ hits = mongoSearch db.docs tS q k top := by
    cases st with
    | noStore =>
      simp [search_docs] at hok
      exact Or.inl hok
    | dataApi ok conn =>
      cases conn with
      | unreachable => simp [search_docs] at hok
      | respond code =>
        by_cases hc : code < 400
        · simp [search_docs, hc] at hok
          exact Or.inr hok.symm
        · simp [search_docs, hc] at hok
    | pymongo =>
      simp [search_docs] at hok
      exact Or.inr hok.symm
  cases key with
  | inl h =>
    subst h
    exact ⟨Nat.zero_le _, List.sorted_nil, fun t ht x hx => absurd hx (List.not_mem_nil x)⟩
  | inr h =>
    subst h
    refine ⟨mongoSearch_length_le _ _ _ _ _, mongoSearch_sorted _ _ _ _ _,
      fun t ht x hx => ?_⟩
    obtain ⟨d, hdocs, hsome, htop, hxe⟩ := mongoSearch_mem _ _ _ _ _ _ hx
    subst ht
    exact ⟨d, hdocs, of_decide_eq_true htop, hxe⟩

/-- Three concrete knowledge-base documents. -/
def doc1 : Document := ⟨some "a.md", some "A", none, some "alpha", some "SEO"⟩

def doc2 : Document := ⟨some "b.md", some "B", none, some "beta", some "SEO"⟩

def doc3 : Document := ⟨some "c.md", some "C", none, some "gamma", some "Legal"⟩

def docsW : List Document := [doc1, doc2, doc3]

def dbW : DB := ⟨docsW, []⟩

/-- A concrete text scorer: every document matches "seo", document B best. -/
def tSW : String → Document → Option Nat :=
  fun q d => if q = "seo" then (if d.title = some "B" then some 7 else some 3) else none

/-- Witness for C8 at a concrete store, query, k = 2 and topic "SEO". -/
theorem search_results_bounded_sorted_filtered_witness :
    (mongoSearch docsW tSW "seo" 2 (some "SEO")).length ≤ 2
    ∧ List.Sorted hitGe (mongoSearch docsW tSW "seo" 2 (some "SEO")) :=
  have h := search_results_bounded_sorted_filtered StoreState.pymongo dbW tSW "seo" 2
    (some "SEO") (mongoSearch docsW tSW "seo" 2 (some "SEO")) (by decide) rfl
  ⟨h.1, h.2.1⟩

-- ---------------------------------------------------------------------------
-- C1: retrieval failure behavior
-- ---------------------------------------------------------------------------

/-- A text scorer that matches nothing. -/
def tSnone : String → Document → Option Nat := fun _ _ => none

/-- An empty database. -/
def db0 : DB := ⟨[], []⟩

/-- C1 counterexample: with a Data API store handle whose backend is
unreachable at query time, `search_docs` does not return an empty sequence;
the transport exception raised inside `da_aggregate` propagates. -/
theorem search_failure_empty_counterexample :
    search_docs (StoreState.dataApi true DaConn.unreachable) db0 tSnone "seo basics" 5 none
      = Except.error DaError.transport
    ∧ search_docs (StoreState.dataApi true DaConn.unreachable) db0 tSnone "seo basics" 5 none
      ≠ Except.ok [] :=
  ⟨rfl, fun h => Except.noConfusion h⟩

/-- C1 amended: `search_docs` returns an empty sequence (rather than
raising) exactly in the no-store-handle case (backend unconfigured, or the
PyMongo connection failed at startup, `store = None`); with a Data API store
handle, an unreachable backend raises a transport error and an HTTP error
status (≥ 400) raises via `raise_for_status`, so the turn crashes instead
of degrading. -/
theorem search_failure_modes : ∀ (ok : Bool) (db : DB)
    (tS : String → Document → Option Nat) (q : String) (k : Nat)
    (top : Option String) (code : Nat),
    search_docs StoreState.noStore db tS q k top = Except.ok []
    ∧ search_docs (StoreState.dataApi ok DaConn.unreachable) db tS q k top
      = Except.error DaError.transport
    ∧ (400 ≤ code →
        search_docs (StoreState.dataApi ok (DaConn.respond code)) db tS q k top
          = Except.error (DaError.httpStatus code)) := by
  intro ok db tS q k top code
  refine ⟨rfl, rfl, fun hc => ?_⟩
  have hnc : ¬ code < 400 := by omega
  simp [search_docs, hnc]

/-- Witness for the amended C1 theorem at a concrete 500 status. -/
theorem search_failure_modes_witness :
    search_docs (StoreState.dataApi true (DaConn.respond 500)) db0 tSnone "q" 5 none
      = Except.error (DaError.httpStatus 500) :=
  (search_failure_modes true db0 tSnone "q" 5 none 500).2.2 (by decide)

-- ---------------------------------------------------------------------------
-- C4: history fetch order and window
-- ---------------------------------------------------------------------------

/-- A session history of 21 messages with ascending timestamps 0..20. -/
def chatAsc : List ChatDoc := (List.range 21).map (fun i => ⟨"s", "e", i, some "user", some "m"⟩)

def dbAsc : DB := ⟨[], chatAsc⟩

/-- Following the spec's words, for comparison with the code: the window of
the most recent `n` turns of the session — the last `n` elements of the
ascending-time-ordered (session, identity) history. -/
def specRecentWindow (chat : List ChatDoc) (sid email : String) (n : Nat) : List ChatDoc :=
  (sortByTs (filterSession chat sid email)).drop
    ((sortByTs (filterSession chat sid email)).length - n)

/-- C4 counterexample: with 21 stored messages (timestamps 0..20) and the
Session Loop's limit of 20, the fetched window is the 20 OLDEST messages
(ascending sort, then limit), not the window of the most recent turns: the
most recent 20 are timestamps 1..20, but the code returns timestamps 0..19. -/
theorem history_window_counterexample :
    get_history StoreState.pymongo dbAsc "s" "e" 20
      = Except.ok (historyQuery chatAsc "s" "e" 20)
    ∧ historyQuery chatAsc "s" "e" 20 = chatAsc.take 20
    ∧ specRecentWindow chatAsc "s" "e" 20 = chatAsc.drop 1
    ∧ historyQuery chatAsc "s" "e" 20 ≠ specRecentWindow chatAsc "s" "e" 20 := by
  refine ⟨rfl, by decide, by decide, by decide⟩

/-- C4 amended: fetch returns the session-and-identity messages in ascending
time order truncated to the given limit, and that truncation keeps the
EARLIEST turns of the session (the fetched window is an initial segment of
the full ascending history), so the window the Session Loop passes to the
assembler (limit 20) is the first 20 turns, not the most recent ones. -/
theorem history_fetch_ascending_truncated : ∀ (db : DB) (sid email : String) (lim : Nat),
    get_history StoreState.pymongo db sid email lim
      = Except.ok (historyQuery db.chat sid email lim)
    ∧ List.Sorted tsLe (historyQuery db.chat sid email lim)
    ∧ (∀ m, m ∈ historyQuery db.chat sid email lim → m.session_id = sid ∧ m.email = email)
    ∧ (historyQuery db.chat sid email lim).length ≤ lim
    ∧ (∃ rest, sortByTs (filterSession db.chat sid email)
        = historyQuery db.chat sid email lim ++ rest) := by
  intro db sid email lim
  refine ⟨rfl, ?_, fun m hm => ?_, List.length_take_le _ _,
    ⟨(sortByTs (filterSession db.chat sid email)).drop lim,
      (List.take_append_drop lim _).symm⟩⟩
  · exact List.Pairwise.sublist (List.take_sublist _ _)
      (List.sorted_insertionSort tsLe (filterSession db.chat sid email))
  · have h1 : m ∈ sortByTs (filterSession db.chat sid email) := List.mem_of_mem_take hm
    have h2 : m ∈ filterSession db.chat sid email := by
      unfold sortByTs at h1
      rwa [List.mem_insertionSort] at h1
    obtain ⟨_, hp⟩ := List.mem_filter.mp h2
    rw [Bool.and_eq_true, decide_eq_true_eq, decide_eq_true_eq] at hp
    exact hp

def dbW1 : DB := ⟨[], [⟨"s", "e", 0, some "user", some "m"⟩]⟩

/-- Witness for the amended C4 theorem on a one-message store. -/
theorem history_fetch_ascending_truncated_witness :
    get_history StoreState.pymongo dbW1 "s" "e" 1
      = Except.ok (historyQuery dbW1.chat "s" "e" 1)
    ∧ (historyQuery dbW1.chat "s" "e" 1).length ≤ 1
    ∧ (⟨"s", "e", 0, some "user", some "m"⟩ : ChatDoc).session_id = "s" :=
  have h := history_fetch_ascending_truncated dbW1 "s" "e" 1
  ⟨h.1, h.2.2.2.1, (h.2.2.1 _ (by decide)).1⟩

-- ---------------------------------------------------------------------------
-- C2: history store failure behavior
-- ---------------------------------------------------------------------------

/-- A run configuration with no store handle (store = None). -/
def envNoStore : AppEnv := ⟨none, StoreState.noStore, db0, tSnone, fun _ => ClaudeResult.reply "ok", 0, 1⟩

/-- C2 counterexample: with a Data API store handle whose backend is
unreachable at call time, fetch raises a transport error (it does not
degrade to an empty result) and append raises as well (it is not a no-op);
and when there is no store handle at all, the script stops with an error at
the store guard instead of continuing in a history-less mode. -/
theorem history_store_failure_counterexample :
    get_history (StoreState.dataApi true DaConn.unreachable) db0 "s" "e" 50
      = Except.error DaError.transport
    ∧ save_msg (StoreState.dataApi true DaConn.unreachable) db0 "s" "e" "user" "hello" 0
      = Except.error DaError.transport
    ∧ (runScript envNoStore "a@b.c" "sid1" 5 "SEO" (some "hi")).outcome
      = Outcome.stoppedStore := by
  refine ⟨rfl, rfl, by decide⟩

/-- C2 amended: when there is no store handle (store = None), append is a
no-op and fetch returns an empty result without raising, but the Session
Loop then does not continue history-less: it stops at the store guard; with
a Data API handle, an unreachable backend makes both fetch and append raise
a transport error, while a reachable backend answering an HTTP error status
makes fetch raise via `raise_for_status` but lets append silently no-op,
because `da_insert_one` never checks the response status. -/
theorem history_store_failure_modes : ∀ (db : DB)
    (sid email role content : String) (lim ts : Nat) (ok : Bool) (code : Nat)
    (env : AppEnv) (e s t : String) (k : Nat) (m : Option String),
    get_history StoreState.noStore db sid email lim = Except.ok []
    ∧ save_msg StoreState.noStore db sid email role content ts = Except.ok db
    ∧ (env.store = StoreState.noStore → pyTruthyS e = true → reMatchEmail e = true →
        runScript env e s k t m = ⟨Outcome.stoppedStore, env.db⟩)
    ∧ get_history (StoreState.dataApi ok DaConn.unreachable) db sid email lim
      = Except.error DaError.transport
    ∧ save_msg (StoreState.dataApi ok DaConn.unreachable) db sid email role content ts
      = Except.error DaError.transport
    ∧ (400 ≤ code →
        get_history (StoreState.dataApi ok (DaConn.respond code)) db sid email lim
          = Except.error (DaError.httpStatus code)
        ∧ save_msg (StoreState.dataApi ok (DaConn.respond code)) db sid email role content ts
          = Except.ok db) := by
  intro db sid email role content lim ts ok code env e s t k m
  refine ⟨rfl, rfl, fun hs he hm => ?_, rfl, rfl, fun hc => ?_⟩
  · unfold runScript
    simp [he, hm, hs, isNoStore]
  · have hnc : ¬ code < 400 := by omega
    constructor
    · simp [get_history, hnc]
    · simp [save_msg, hnc]

/-- Witness for the amended C2 theorem: a valid email with no store handle
stops at the store guard, and a Data API append answered with HTTP 500
silently leaves the database unchanged. -/
theorem history_store_failure_modes_witness :
    runScript envNoStore "a@b.c" "sid1" 5 "SEO" none
      = ⟨Outcome.stoppedStore, envNoStore.db⟩
    ∧ save_msg (StoreState.dataApi true (DaConn.respond 500)) db0 "s" "e" "user" "x" 0
      = Except.ok db0 :=
  have h := history_store_failure_modes db0 "s" "e" "user" "x" 0 0 true 500 envNoStore
    "a@b.c" "sid1" "SEO" 5 none
  ⟨h.2.2.1 rfl (by decide) (by decide), (h.2.2.2.2.2 (by decide)).2⟩

-- ---------------------------------------------------------------------------
-- C10: email gate
-- ---------------------------------------------------------------------------

lemma runScript_gate_pass (env : AppEnv) (email sid : String) (k : Nat) (topic : String)
    (msg : Option String) (hg : (pyTruthyS email && reMatchEmail email) = true) :
    (runScript env email sid k topic msg).outcome ≠ Outcome.stoppedEmail := by
  unfold runScript
  rw [if_neg (by simp [hg])]
  repeat' first | exact fun h => Outcome.noConfusion h | split | dsimp only

/-- C10: a turn can only start when the supplied identity passes the fixed
email regular expression gate (`EMAIL_RE`-shaped check at line 183): the
run stops at the email gate exactly when the identity is empty or fails
`reMatchEmail`, and in that case the database is left unchanged (no message
is stored). -/
theorem email_gate_mandatory : ∀ (env : AppEnv) (email sid : String) (k : Nat)
    (topic : String) (msg : Option String),
    ((runScript env email sid k topic msg).outcome = Outcome.stoppedEmail
      ↔ ¬(pyTruthyS email = true ∧ reMatchEmail email = true))
    ∧ ((runScript env email sid k topic msg).outcome = Outcome.stoppedEmail →
        (runScript env email sid k topic msg).db = env.db) := by
  intro env email sid k topic msg
  by_cases hg : (pyTruthyS email && reMatchEmail email) = true
  · have hne := runScript_gate_pass env email sid k topic msg hg
    rw [Bool.and_eq_true] at hg
    exact ⟨⟨fun h => absurd h hne, fun h => absurd hg h⟩, fun h => absurd h hne⟩
  · have hc : (pyTruthyS email && reMatchEmail email) = false := by
      revert hg
      cases pyTruthyS email && reMatchEmail email <;> simp
    have hout : runScript env email sid k topic msg = ⟨Outcome.stoppedEmail, env.db⟩ := by
      unfold runScript
      rw [hc]
      rfl
    rw [hout]
    exact ⟨⟨fun _ hand => hg (by rw [Bool.and_eq_true]; exact hand), fun _ => rfl⟩, fun _ => rfl⟩

/-- Witness for C10: an empty identity stops the run before any turn and
leaves the database unchanged. -/
theorem email_gate_mandatory_witness :
    (runScript envNoStore "" "sid" 5 "SEO" none).outcome = Outcome.stoppedEmail
    ∧ (runScript envNoStore "" "sid" 5 "SEO" none).db = envNoStore.db :=
  have h := email_gate_mandatory envNoStore "" "sid" 5 "SEO" none
  have ho := h.1.mpr (by decide)
  ⟨ho, h.2 ho⟩
